import Mathlib

/-!
Verification development for the RIKA 2.0 orchestration core: a shallow
embedding of the SaaS ToolBroker (health gate, retry with persisted
per-pair attempt counters, fallback chains) and of the IntelligenceRouter
(QoS tier selection, intent-classification cache, memory shaping, cost
sentinel), with theorems settling the frozen specification claims.

Conventions of the embedding:
* JavaScript `Map` objects become association lists `List (String × α)`
  with `mapSet` / `mapDelete` mirroring `Map.set` / `Map.delete`
  (insertion order preserved, updates in place, `lookup` is `Map.get`).
* Timestamps (`Date.now()`) are explicit `Nat` parameters threaded through
  the state-mutating functions.
* Monetary amounts and other JS floating-point numbers are modelled as
  rationals; every concrete amount appearing in the claims (budgets of
  10.0, per-call estimates of 3.0, unit prices 0.0015 / 0.03) is exactly
  representable in binary floating point, so rational arithmetic agrees
  with the source on these values.
* The nondeterministic outside world (one network attempt of
  `callProvider`) is an oracle `net : Nat → Except String String` giving
  the outcome of the k-th underlying call of one logical invocation.
-/

set_option autoImplicit false

namespace Rika

universe u

/-- `Map.set` on an association list: replaces the value in place if the key
is present (JS `Map` keeps the original insertion position), appends
otherwise. -/
def mapSet {α : Type u} (k : String) (v : α) : List (String × α) → List (String × α)
  | [] => [(k, v)]
  | (k', v') :: rest => if k' = k then (k, v) :: rest else (k', v') :: mapSet k v rest

/-- `Map.delete` on an association list. -/
def mapDelete {α : Type u} (k : String) (m : List (String × α)) : List (String × α) :=
  m.filter (fun kv => !(kv.1 == k))

theorem lookup_mapSet_self {α : Type u} (k : String) (v : α) (m : List (String × α)) :
    (mapSet k v m).lookup k = some v := by
  induction m with
  | nil => simp [mapSet, List.lookup]
  | cons kv rest ih =>
    obtain ⟨k1, v1⟩ := kv
    by_cases h : k1 = k
    · simp [mapSet, h, List.lookup]
    · have hb : (k == k1) = false := beq_eq_false_iff_ne.mpr (Ne.symm h)
      simp [mapSet, h, List.lookup, hb, ih]

theorem lookup_mapSet_ne {α : Type u} (k k' : String) (v : α) (m : List (String × α))
    (h : k' ≠ k) : (mapSet k v m).lookup k' = m.lookup k' := by
  induction m with
  | nil => simp [mapSet, List.lookup, beq_eq_false_iff_ne.mpr h]
  | cons kv rest ih =>
    obtain ⟨k1, v1⟩ := kv
    by_cases hk : k1 = k
    · subst hk
      simp [mapSet, List.lookup, beq_eq_false_iff_ne.mpr h]
    · simp only [mapSet, if_neg hk, List.lookup]
      cases hkk : k' == k1 <;> simp [ih]

theorem lookup_mapDelete_self {α : Type u} (k : String) (m : List (String × α)) :
    (mapDelete k m).lookup k = none := by
  induction m with
  | nil => rfl
  | cons kv rest ih =>
    obtain ⟨k1, v1⟩ := kv
    by_cases h : k1 = k
    · simpa [mapDelete, List.filter, h] using ih
    · have hb : (k == k1) = false := beq_eq_false_iff_ne.mpr (Ne.symm h)
      have hb1 : (k1 == k) = false := beq_eq_false_iff_ne.mpr h
      simpa [mapDelete, List.filter, hb1, List.lookup, hb] using ih

/-! ## Provider broker (`ToolBroker`, src/unnamed/part_003) -/

/-- Live health snapshot of one provider, the value stored in
`this.healthStatus` (part_003 lines 188-208).  The optional error string of
the probe-failure path is omitted; no claim mentions it. -/
structure Health where
  healthy : Bool
  latency : Option Nat
  lastCheck : Nat
  consecutiveFailures : Nat
deriving DecidableEq

/-- Invariant of every health snapshot the health monitor writes: a strictly
positive failure count is only ever recorded together with `healthy = false`
(both branches of `performHealthChecks` set `consecutiveFailures` to `0`
whenever they record `healthy = true`). -/
def HealthInv (h : Health) : Prop := 0 < h.consecutiveFailures → h.healthy = false

/-- The snapshot written by the non-throwing path of `performHealthChecks`
(part_003 lines 187-193): latency is recorded, and `consecutiveFailures` is
reset to `0` on a healthy probe or incremented otherwise. -/
def updateHealthOutcome (prev : Option Health) (isHealthy : Bool) (latency now : Nat) : Health :=
  { healthy := isHealthy
    latency := some latency
    lastCheck := now
    consecutiveFailures := if isHealthy then 0 else (prev.map Health.consecutiveFailures).getD 0 + 1 }

/-- The snapshot written by the catch path of `performHealthChecks`
(part_003 lines 199-208): unhealthy, no latency, failure count incremented. -/
def updateHealthProbeError (prev : Option Health) (now : Nat) : Health :=
  { healthy := false
    latency := none
    lastCheck := now
    consecutiveFailures := (prev.map Health.consecutiveFailures).getD 0 + 1 }

theorem healthInv_updateHealthOutcome (prev : Option Health) (isHealthy : Bool)
    (latency now : Nat) : HealthInv (updateHealthOutcome prev isHealthy latency now) := by
  intro hpos
  cases isHealthy with
  | false => rfl
  | true => simp [updateHealthOutcome] at hpos

theorem healthInv_updateHealthProbeError (prev : Option Health) (now : Nat) :
    HealthInv (updateHealthProbeError prev now) := by
  intro _; rfl

/-- Mutable state of the `ToolBroker` instance: registered provider names,
the health map, the persisted per-`provider-operation` retry counters, and
the fallback chains. -/
structure BrokerState where
  providers : List String
  healthStatus : List (String × Health)
  retryAttempts : List (String × Nat)
  fallbacks : List (String × List String)
deriving DecidableEq

/-- The fallback chains installed by `setupFallbacks` (part_003 lines 120-132). -/
def fallbacksDefault : List (String × List String) :=
  [("llm", ["openai", "local"]),
   ("tts", ["elevenlabs", "browser"]),
   ("search", ["brave", "duckduckgo"]),
   ("vector", ["pinecone", "sqlite"])]

/-- The errors `callProvider` / `callWithFallback` can throw.  Each
constructor carries exactly the data interpolated into the corresponding
JS `Error` message. `brokerFuelExhausted` is the out-of-fuel marker of the
bounded recursion and is unreachable from `callProvider` (the retry gate
bounds the recursion depth by `maxRetries`, and `callProvider` supplies
`maxRetries + 1` fuel). -/
inductive CallError where
  | providerNotAvailable (provider : String)
  | providerUnhealthy (provider : String) (failures : Nat)
  | maxRetriesExceeded (provider operation : String)
  | underlying (message : String)
  | allProvidersFailed (service : String)
  | brokerFuelExhausted
deriving DecidableEq

instance {ε : Type u} {α : Type u} [DecidableEq ε] [DecidableEq α] :
    DecidableEq (Except ε α) := fun x y =>
  match x, y with
  | .ok a, .ok b => if h : a = b then .isTrue (by rw [h]) else .isFalse (by simp [h])
  | .ok _, .error _ => .isFalse (by simp)
  | .error _, .ok _ => .isFalse (by simp)
  | .error a, .error b => if h : a = b then .isTrue (by rw [h]) else .isFalse (by simp [h])

/-- The retry-map key `` `${providerName}-${operation}` `` (part_003 line 225). -/
def retryKey (provider operation : String) : String := provider ++ "-" ++ operation

/-- The circuit-breaker gate of part_003 line 220:
`health && !health.healthy && health.consecutiveFailures > 3`. -/
def healthBlocked (hs : List (String × Health)) (provider : String) : Bool :=
  match hs.lookup provider with
  | some h => !h.healthy && decide (3 < h.consecutiveFailures)
  | none => false

/-- The failure count interpolated into the `ProviderUnhealthy` message. -/
def healthFailures (hs : List (String × Health)) (provider : String) : Nat :=
  ((hs.lookup provider).map Health.consecutiveFailures).getD 0

/-- One logical `callProvider` invocation (part_003 lines 213-284),
including its internal retry recursion (line 279 re-enters the function).
`net k` is the outcome of the k-th underlying provider call of this
invocation.  Returns the thrown error or result, the broker state after the
invocation, and the number of underlying calls actually attempted.  `fuel`
bounds the recursion; `callProvider` supplies enough for the retry gate
(`currentAttempt >= maxRetries`) to terminate it first. -/
def callProviderGo (p op : String) (maxRetries : Nat) (net : Nat → Except String String) :
    Nat → BrokerState → Nat → Except CallError String × BrokerState × Nat
  | 0, s, _ => (.error .brokerFuelExhausted, s, 0)
  | fuel + 1, s, idx =>
    if s.providers.contains p = false then
      (.error (.providerNotAvailable p), s, 0)
    else if healthBlocked s.healthStatus p then
      (.error (.providerUnhealthy p (healthFailures s.healthStatus p)), s, 0)
    else
      let currentAttempt := (s.retryAttempts.lookup (retryKey p op)).getD 0
      if maxRetries ≤ currentAttempt then
        (.error (.maxRetriesExceeded p op), s, 0)
      else
        match net idx with
        | .ok result =>
          (.ok result, { s with retryAttempts := mapDelete (retryKey p op) s.retryAttempts }, 1)
        | .error e =>
          let nextAttempt := currentAttempt + 1
          let s' := { s with retryAttempts := mapSet (retryKey p op) nextAttempt s.retryAttempts }
          if nextAttempt < maxRetries then
            let r' := callProviderGo p op maxRetries net fuel s' (idx + 1)
            (r'.1, r'.2.1, r'.2.2 + 1)
          else
            (.error (.underlying e), s', 1)

/-- `callProvider(providerName, operation, params, options)` with the
`options.maxRetries || 3` default already resolved into `maxRetries`. -/
def callProvider (s : BrokerState) (p op : String) (maxRetries : Nat)
    (net : Nat → Except String String) : Except CallError String × BrokerState × Nat :=
  callProviderGo p op maxRetries net (maxRetries + 1) s 0

/-- The `options.maxRetries || 3` default of part_003 line 224 (note that a
falsy explicit `0` also resolves to `3`). -/
def resolvedMaxRetries (opt : Option Nat) : Nat :=
  match opt with
  | some n => if n = 0 then 3 else n
  | none => 3

/-- The fallback loop of `callWithFallback` (part_003 lines 286-299): try
each provider of the chain in order, threading the broker state; any error
is swallowed and the next provider is tried; an exhausted chain throws
`All providers failed for service: ...` carrying only the service name. -/
def callWithFallbackGo (service op : String) (maxRetries : Nat)
    (nets : String → Nat → Except String String) :
    BrokerState → List String → Except CallError String × BrokerState
  | s, [] => (.error (.allProvidersFailed service), s)
  | s, p :: rest =>
    let r := callProvider s p op maxRetries (nets p)
    match r.1 with
    | .ok v => (.ok v, r.2.1)
    | .error _ => callWithFallbackGo service op maxRetries nets r.2.1 rest

/-- `callWithFallback(service, operation, params, options)`; the chain is
`this.fallbacks.get(service) || [service]` (part_003 line 287). `nets p`
is the attempt oracle used for provider `p`. -/
def callWithFallback (s : BrokerState) (service op : String) (maxRetries : Nat)
    (nets : String → Nat → Except String String) : Except CallError String × BrokerState :=
  callWithFallbackGo service op maxRetries nets s ((s.fallbacks.lookup service).getD [service])

/-! ## Intelligence layer (`IntelligenceRouter`, src/unnamed/part_004) -/

/-- One QoS tier configuration as built by `initQoSTiers` (part_004 lines
20-53).  `temperature` and `costMultiplier` are JS floats, modelled as
rationals. -/
structure QoSTier where
  name : String
  maxTokens : Nat
  temperature : ℚ
  model : String
  timeoutMs : Nat
  priority : Nat
  costMultiplier : ℚ
  description : String
deriving DecidableEq

def qosRealtime : QoSTier :=
  { name := "realtime", maxTokens := 512, temperature := 3/10, model := "gpt-3.5-turbo"
    timeoutMs := 800, priority := 1, costMultiplier := 3/2
    description := "PTT voice & calls - ultra fast" }

def qosInteractive : QoSTier :=
  { name := "interactive", maxTokens := 1024, temperature := 7/10, model := "gpt-4"
    timeoutMs := 3000, priority := 2, costMultiplier := 1
    description := "chat & light tools - balanced" }

def qosBatch : QoSTier :=
  { name := "batch", maxTokens := 4096, temperature := 1/2, model := "gpt-4"
    timeoutMs := 15000, priority := 3, costMultiplier := 7/10
    description := "research/long tasks - thorough" }

/-- An intent classification result, including the context-flag fields the
router writes onto the classified object afterwards (`hasContext`,
`isFollowUp`).  The untyped `userPreferences` bag is omitted; no claim
mentions it. -/
structure Intent where
  category : String
  confidence : ℚ
  complexity : String
  urgency : String
  requiresTools : Bool
  estimatedTokens : Nat
  hasContext : Bool := false
  isFollowUp : Bool := false
deriving DecidableEq

/-- The caller-supplied routing context; only the fields the embedded
operations read are kept (`isVoice` / `isCall` for QoS selection,
`conversationId` / `previousMessage` for intent enrichment). -/
structure RouteContext where
  isVoice : Bool := false
  isCall : Bool := false
  conversationId : Option String := none
  previousMessage : Option String := none
deriving DecidableEq

/-- `selectQoSTier(intent, context)` (part_004 lines 177-195): a pure
top-to-bottom cascade. -/
def selectQoSTier (intent : Intent) (context : RouteContext) : QoSTier :=
  if context.isVoice || context.isCall then qosRealtime
  else if intent.urgency = "high" then qosInteractive
  else if intent.complexity = "complex" ∧ intent.category = "research" then qosBatch
  else qosInteractive

/-- `getFallbackIntent(message)` (part_004 lines 407-416); the message
argument is ignored by the source body. -/
def getFallbackIntent (_message : String) : Intent :=
  { category := "general", confidence := 1/2, complexity := "moderate", urgency := "medium"
    requiresTools := false, estimatedTokens := 500 }

/-- One entry of `this.intentCache`: the enriched intent plus the write
timestamp (part_004 lines 164-167). -/
structure CachedIntent where
  intent : Intent
  timestamp : Nat
deriving DecidableEq

/-- The miss path of `classifyIntent` (part_004 lines 131-174): the broker
call and the `JSON.parse` of its reply are one oracle `classification`
(any throw of either lands in the same catch, which returns the fallback
intent and caches nothing).  On success the parsed intent is enriched with
the context flags and cached under `cacheKey` with the current time. -/
def classifyIntentFresh (cache : List (String × CachedIntent)) (cacheKey : String)
    (context : RouteContext) (now : Nat) (classification : Except String Intent) :
    Intent × List (String × CachedIntent) × Bool :=
  match classification with
  | .ok parsed =>
    let intent := { parsed with
      hasContext := context.conversationId.isSome
      isFollowUp := context.previousMessage.isSome }
    (intent, mapSet cacheKey ⟨intent, now⟩ cache, true)
  | .error _ => (getFallbackIntent "", cache, true)

/-- `classifyIntent(message, context)` (part_004 lines 123-175).  `hash` is
the external `crypto` md5-hex-8 digest (an arbitrary pure function of the
message in this embedding); the returned `Bool` records whether the
underlying classification capability (`toolBroker.callProvider`) was
invoked. -/
def classifyIntent (cache : List (String × CachedIntent)) (hash : String → String)
    (message : String) (context : RouteContext) (now : Nat)
    (classification : Except String Intent) : Intent × List (String × CachedIntent) × Bool :=
  let cacheKey := "intent_" ++ hash message
  match cache.lookup cacheKey with
  | some cached =>
    if now - cached.timestamp < 300000 then (cached.intent, cache, false)
    else classifyIntentFresh cache cacheKey context now classification
  | none => classifyIntentFresh cache cacheKey context now classification

/-- `this.costTracker` (part_004 lines 9-14); amounts as rationals. -/
structure CostTracker where
  daily : ℚ
  monthly : ℚ
  requests : Nat
  tokens : Nat
deriving DecidableEq

/-- The two result shapes of `checkCostSentinel`: the rejection object
carries `currentSpend`, `estimatedCost` and `dailyBudget` (the `reason`
string interpolates exactly these three numbers), the admission object
carries the estimate and the remaining budget. -/
inductive CostCheck where
  | rejected (currentSpend estimatedCost dailyBudget : ℚ)
  | allowed (estimatedCost remainingBudget : ℚ)
deriving DecidableEq

/-- The `baseCost[qosTier.model] || baseCost['gpt-3.5-turbo']` table of
`estimateRequestCost` (part_004 lines 391-397): 0.0015 resp. 0.03 per 1K
tokens. -/
def baseCostOf (model : String) : ℚ :=
  if model = "gpt-3.5-turbo" then 15/10000
  else if model = "gpt-4" then 3/100
  else 15/10000

/-- `estimateRequestCost(qosTier, message)` (part_004 lines 390-400).  The
source reads only `message.length`; the embedding takes that length
directly.  `Math.ceil(len / 3)` on a natural length is `(len + 2) / 3` in
truncated natural division. -/
def estimateRequestCost (tier : QoSTier) (msgLen : Nat) : ℚ :=
  (((msgLen + 2) / 3 : Nat) : ℚ) / 1000 * baseCostOf tier.model * tier.costMultiplier

/-- `checkCostSentinel(qosTier, message)` (part_004 lines 235-258) with the
`DAILY_BUDGET_USD || 10.0` environment default already resolved into
`dailyBudget`.  Rejection leaves the tracker untouched; admission adds the
estimate to `daily` and increments `requests`. -/
def checkCostSentinel (ct : CostTracker) (dailyBudget : ℚ) (tier : QoSTier) (msgLen : Nat) :
    CostCheck × CostTracker :=
  let estimatedCost := estimateRequestCost tier msgLen
  if dailyBudget < ct.daily + estimatedCost then
    (.rejected ct.daily estimatedCost dailyBudget, ct)
  else
    (.allowed estimatedCost (dailyBudget - (ct.daily + estimatedCost)),
     { ct with daily := ct.daily + estimatedCost, requests := ct.requests + 1 })

/-- The default of `parseFloat(process.env.DAILY_BUDGET_USD) || 10.0`. -/
def defaultDailyBudget : ℚ := 10

/-- `resetDailyCosts()` (part_004 lines 451-455). -/
def resetDailyCosts (ct : CostTracker) : CostTracker :=
  { ct with daily := 0, requests := 0 }

/-- A short-term (or long-term) memory item: the stored payload spread
together with the write timestamp (part_004 lines 348-352). -/
structure MemItem where
  payload : String
  timestamp : Nat
deriving DecidableEq

/-- A mid-term memory item (part_004 lines 358-364). -/
structure MidItem where
  summary : String
  timestamp : Nat
  accessCount : Nat
deriving DecidableEq

/-- A pinned item (part_004 lines 366-371). -/
structure PinItem where
  payload : String
  pinnedAt : Nat
deriving DecidableEq

/-- `this.memoryShaping` (part_004 lines 55-67): the three tier maps and
the pin set.  The decay horizons are the fixed constants below. -/
structure MemoryShaping where
  shortTerm : List (String × MemItem)
  midTerm : List (String × MidItem)
  longTerm : List (String × MemItem)
  pins : List PinItem
deriving DecidableEq

def decayShortTerm : Nat := 3600000
def decayMidTerm : Nat := 86400000
def decayLongTerm : Nat := 604800000

/-- `cleanupMemory(type)` (part_004 lines 373-383) at time `now`: removes
from the addressed tier every entry with `now - value.timestamp > maxAge`;
the pin set is never touched. -/
def cleanupMemory (ms : MemoryShaping) (tier : String) (now : Nat) : MemoryShaping :=
  if tier = "shortTerm" then
    { ms with shortTerm :=
        ms.shortTerm.filter (fun kv => !decide (decayShortTerm < now - kv.2.timestamp)) }
  else if tier = "midTerm" then
    { ms with midTerm :=
        ms.midTerm.filter (fun kv => !decide (decayMidTerm < now - kv.2.timestamp)) }
  else if tier = "longTerm" then
    { ms with longTerm :=
        ms.longTerm.filter (fun kv => !decide (decayLongTerm < now - kv.2.timestamp)) }
  else ms

/-- `storeShortTermMemory(key, value)` (part_004 lines 348-356): writes the
timestamped item, then immediately sweeps the short-term tier. -/
def storeShortTermMemory (ms : MemoryShaping) (key payload : String) (now : Nat) :
    MemoryShaping :=
  cleanupMemory { ms with shortTerm := mapSet key ⟨payload, now⟩ ms.shortTerm } "shortTerm" now

/-- The context snapshot built by `assembleMemoryContext`. -/
structure MemoryContext where
  shortTerm : List MemItem
  midTerm : List MidItem
  longTerm : List MemItem
  pins : List PinItem
deriving DecidableEq

/-- `Array.slice(-n)`: the last `n` elements. -/
def sliceLast {α : Type u} (n : Nat) (l : List α) : List α := l.drop (l.length - n)

/-- `assembleMemoryContext(message, intent)` (part_004 lines 197-233): the
last 10 short-term values, the mid-term summary for the intent's category
when present (the `if (intent.category)` truthiness test is the emptiness
test on the string), the full pin set, and an always-empty long-term part
(the vector-search branch of the source only logs).  No clock is read and
no age filtering happens here. -/
def assembleMemoryContext (ms : MemoryShaping) (_message : String) (intent : Intent) :
    MemoryContext :=
  { shortTerm := (sliceLast 10 ms.shortTerm).map Prod.snd
    midTerm :=
      if intent.category = "" then []
      else
        match ms.midTerm.lookup intent.category with
        | some projectContext => [projectContext]
        | none => []
    longTerm := []
    pins := ms.pins }

/-! ## Auxiliary lemmas about the broker loop -/

/-- Combined behavioural facts about one `callProviderGo` run: it never
writes the health map, the provider list or the fallback table; the number
of underlying calls it makes is bounded by the distance from the persisted
attempt counter to `maxRetries`; and a successful run always leaves the
pair's retry entry deleted. -/
theorem callProviderGo_spec (p op : String) (mr : Nat)
    (net : Nat → Except String String) :
    ∀ (fuel : Nat) (s : BrokerState) (idx : Nat),
      (callProviderGo p op mr net fuel s idx).2.1.healthStatus = s.healthStatus ∧
      (callProviderGo p op mr net fuel s idx).2.1.providers = s.providers ∧
      (callProviderGo p op mr net fuel s idx).2.1.fallbacks = s.fallbacks ∧
      (callProviderGo p op mr net fuel s idx).2.2
        ≤ mr - ((s.retryAttempts.lookup (retryKey p op)).getD 0) ∧
      (∀ r : String, (callProviderGo p op mr net fuel s idx).1 = .ok r →
        ((callProviderGo p op mr net fuel s idx).2.1.retryAttempts.lookup (retryKey p op))
          = none) := by
  intro fuel
  induction fuel with
  | zero => intro s idx; simp [callProviderGo]
  | succ f ih =>
    intro s idx
    simp only [callProviderGo]
    split
    · simp
    · split
      · simp
      · split
        · simp
        · rename_i hgate
          split
          · refine ⟨rfl, rfl, rfl, ?_, ?_⟩
            · dsimp only
              omega
            · intro r _
              simpa using lookup_mapDelete_self (retryKey p op) s.retryAttempts
          · rename_i e hnet
            split
            · rename_i hlt
              have h2 := ih ({ s with retryAttempts := mapSet (retryKey p op) ((List.lookup (retryKey p op) s.retryAttempts).getD 0 + 1) s.retryAttempts }) (idx + 1)
              dsimp only at h2
              rw [lookup_mapSet_self] at h2
              refine ⟨h2.1, h2.2.1, h2.2.2.1, ?_, ?_⟩
              · dsimp only
                have := h2.2.2.2.1
                simp only [Option.getD_some] at this
                omega
              · intro r hr
                dsimp only at hr ⊢
                exact h2.2.2.2.2 r hr
            · refine ⟨rfl, rfl, rfl, ?_, ?_⟩
              · dsimp only
                omega
              · intro r hr
                simp at hr

/-! ## Claim theorems -/

/-- C1: for a registered provider whose monitor-written health snapshot has
`consecutiveFailures` above the ceiling 3, `callProvider` fails with
`ProviderUnhealthy` carrying that failure count, attempts no underlying
call (attempt count 0), and leaves the broker state — in particular the
per-pair attempt counter — unchanged.  `HealthInv` is the invariant every
snapshot written by `performHealthChecks` satisfies (see
`healthInv_updateHealthOutcome` and `healthInv_updateHealthProbeError`). -/
theorem claim_C1 (s : BrokerState) (p op : String) (h : Health) (mr : Nat)
    (net : Nat → Except String String)
    (hreg : s.providers.contains p = true)
    (hlook : s.healthStatus.lookup p = some h)
    (hinv : HealthInv h)
    (hfail : 3 < h.consecutiveFailures) :
    callProvider s p op mr net = (.error (.providerUnhealthy p h.consecutiveFailures), s, 0) := by
  have hunhealthy : h.healthy = false := hinv (lt_of_le_of_lt (Nat.zero_le 3) hfail)
  have hhb : healthBlocked s.healthStatus p = true := by
    simp [healthBlocked, hlook, hunhealthy, hfail]
  have hfl : healthFailures s.healthStatus p = h.consecutiveFailures := by
    simp [healthFailures, hlook]
  have hmem : p ∈ s.providers := by simpa using hreg
  simp [callProvider, callProviderGo, hmem, hhb, hfl]

def healthFourFailures : Health :=
  { healthy := false, latency := none, lastCheck := 0, consecutiveFailures := 4 }

def brokerStateC1 : BrokerState :=
  { providers := ["openai"]
    healthStatus := [("openai", healthFourFailures)]
    retryAttempts := [("openai-chat", 1)]
    fallbacks := fallbacksDefault }

/-- C1 witness: a concrete broker state with 4 consecutive failures
recorded for `openai`; the dispatch is rejected with `ProviderUnhealthy`,
zero underlying calls, state untouched. -/
theorem claim_C1_witness :
    brokerStateC1.providers.contains "openai" = true ∧
    callProvider brokerStateC1 "openai" "chat" 3 (fun _ => .ok "pong")
      = (.error (.providerUnhealthy "openai" 4), brokerStateC1, 0) :=
  ⟨rfl, claim_C1 brokerStateC1 "openai" "chat" healthFourFailures 3 (fun _ => .ok "pong")
    rfl rfl (fun _ => rfl) (by decide)⟩

/-- The broker state after `this.retryAttempts.set(key, n)` for the pair's
key. -/
def bumpRetry (s : BrokerState) (p op : String) (n : Nat) : BrokerState :=
  { s with retryAttempts := mapSet (retryKey p op) n s.retryAttempts }

theorem lookup_bumpRetry (s : BrokerState) (p op : String) (n : Nat) :
    ((bumpRetry s p op n).retryAttempts.lookup (retryKey p op)).getD 0 = n := by
  simp [bumpRetry, lookup_mapSet_self]

/-- One failing attempt of the retry loop that still has budget left:
the counter is persisted at `ca + 1` and the loop re-enters. -/
theorem callProviderGo_step_fail (p op : String) (mr : Nat)
    (net : Nat → Except String String) (fuel : Nat) (s : BrokerState) (idx ca : Nat)
    (e : String)
    (hreg : s.providers.contains p = true)
    (hh : healthBlocked s.healthStatus p = false)
    (hca : (s.retryAttempts.lookup (retryKey p op)).getD 0 = ca)
    (hlt : ca + 1 < mr)
    (hnet : net idx = .error e) :
    callProviderGo p op mr net (fuel + 1) s idx =
      ((callProviderGo p op mr net fuel (bumpRetry s p op (ca + 1)) (idx + 1)).1,
       (callProviderGo p op mr net fuel (bumpRetry s p op (ca + 1)) (idx + 1)).2.1,
       (callProviderGo p op mr net fuel (bumpRetry s p op (ca + 1)) (idx + 1)).2.2 + 1) := by
  have hgate : ¬ (mr ≤ ca) := by omega
  have hmem : p ∈ s.providers := by simpa using hreg
  simp [callProviderGo, bumpRetry, hmem, hh, hca, hnet, hgate, hlt]

/-- The last failing attempt of the retry loop: the raw underlying error is
rethrown and the counter stays persisted at `ca + 1`. -/
theorem callProviderGo_step_last_fail (p op : String) (mr : Nat)
    (net : Nat → Except String String) (fuel : Nat) (s : BrokerState) (idx ca : Nat)
    (e : String)
    (hreg : s.providers.contains p = true)
    (hh : healthBlocked s.healthStatus p = false)
    (hca : (s.retryAttempts.lookup (retryKey p op)).getD 0 = ca)
    (hlt : ca < mr)
    (hge : ¬ (ca + 1 < mr))
    (hnet : net idx = .error e) :
    callProviderGo p op mr net (fuel + 1) s idx =
      (.error (.underlying e), bumpRetry s p op (ca + 1), 1) := by
  have hgate : ¬ (mr ≤ ca) := by omega
  have hmem : p ∈ s.providers := by simpa using hreg
  simp [callProviderGo, bumpRetry, hmem, hh, hca, hnet, hgate, hge]

/-- Entering `callProvider` with the pair's persisted counter already at or
above `maxRetries` throws `MaxRetriesExceeded` without any attempt. -/
theorem callProviderGo_gate (p op : String) (mr : Nat)
    (net : Nat → Except String String) (fuel : Nat) (s : BrokerState) (idx ca : Nat)
    (hreg : s.providers.contains p = true)
    (hh : healthBlocked s.healthStatus p = false)
    (hca : (s.retryAttempts.lookup (retryKey p op)).getD 0 = ca)
    (hge : mr ≤ ca) :
    callProviderGo p op mr net (fuel + 1) s idx =
      (.error (.maxRetriesExceeded p op), s, 0) := by
  have hmem : p ∈ s.providers := by simpa using hreg
  simp [callProviderGo, hmem, hh, hca, hge]

/-- A broker state with one healthy registered provider and fresh retry
counters. -/
def brokerStateOk : BrokerState :=
  { providers := ["openai"]
    healthStatus := []
    retryAttempts := []
    fallbacks := fallbacksDefault }

/-- C6: one `callProvider` invocation never makes more than `maxRetries`
underlying call attempts, and a successful invocation always leaves the
pair's `RetryState` entry deleted (so its counter reads as zero). -/
theorem claim_C6 (s : BrokerState) (p op : String) (mr : Nat)
    (net : Nat → Except String String) :
    (callProvider s p op mr net).2.2 ≤ mr ∧
    (∀ r : String, (callProvider s p op mr net).1 = .ok r →
      ((callProvider s p op mr net).2.1.retryAttempts.lookup (retryKey p op)) = none) := by
  have h := callProviderGo_spec p op mr net (mr + 1) s 0
  exact ⟨le_trans h.2.2.2.1 (Nat.sub_le _ _), h.2.2.2.2⟩

/-- C6 witness: a concrete successful invocation makes 1 ≤ 3 attempts and
leaves no retry entry for the pair. -/
theorem claim_C6_witness :
    (callProvider brokerStateOk "openai" "chat" 3 (fun _ => .ok "done")).2.2 ≤ 3 ∧
    ((callProvider brokerStateOk "openai" "chat" 3
        (fun _ => .ok "done")).2.1.retryAttempts.lookup (retryKey "openai" "chat")) = none :=
  ⟨(claim_C6 brokerStateOk "openai" "chat" 3 (fun _ => .ok "done")).1,
   (claim_C6 brokerStateOk "openai" "chat" 3 (fun _ => .ok "done")).2 "done" (by decide)⟩

def healthTwoFailures : Health :=
  { healthy := false, latency := none, lastCheck := 50, consecutiveFailures := 2 }

def brokerStateC4 : BrokerState :=
  { providers := ["openai"]
    healthStatus := [("openai", healthTwoFailures)]
    retryAttempts := []
    fallbacks := fallbacksDefault }

/-- C4 counterexample: a successful `callProvider` attempt against a
provider whose health snapshot records 2 consecutive failures leaves the
health map — latency and failure count included — exactly as it was: the
failure counter is not reset to zero and no snapshot field is updated. -/
theorem claim_C4_counterexample :
    (callProvider brokerStateC4 "openai" "chat" 3 (fun _ => .ok "pong")).1 = .ok "pong" ∧
    ((callProvider brokerStateC4 "openai" "chat" 3
        (fun _ => .ok "pong")).2.1.healthStatus.lookup "openai") = some healthTwoFailures := by
  decide

/-- C4 amended: attempt outcomes of `callProvider` never update the
provider's live health snapshot; the health map is written exclusively by
`performHealthChecks`.  (What a successful attempt does reset is the
per-pair `RetryState` counter, see `claim_C6`.) -/
theorem claim_C4_amended (s : BrokerState) (p op : String) (mr : Nat)
    (net : Nat → Except String String) :
    (callProvider s p op mr net).2.1.healthStatus = s.healthStatus :=
  (callProviderGo_spec p op mr net (mr + 1) s 0).1

/-- C3 counterexample: with a fresh counter and every attempt failing with
`boom`, exhausting the retry budget inside one invocation rethrows the raw
underlying error, not a `MaxRetriesExceeded` error. -/
theorem claim_C3_counterexample :
    (callProvider brokerStateOk "openai" "chat" 3 (fun _ => .error "boom")).1
      = .error (.underlying "boom") ∧
    (callProvider brokerStateOk "openai" "chat" 3 (fun _ => .error "boom")).1
      ≠ .error (.maxRetriesExceeded "openai" "chat") := by
  decide

/-- C3 amended: when all retry attempts within one invocation fail (fresh
counter, `maxRetries = 3`), the invocation fails with the last underlying
error itself, and only a subsequent invocation for the same pair — whose
persisted counter is now at `maxRetries` — fails with `MaxRetriesExceeded`
(which carries the provider and operation names, not the underlying
error). -/
theorem claim_C3_amended (s : BrokerState) (p op e0 e1 e2 : String)
    (net net2 : Nat → Except String String)
    (hreg : s.providers.contains p = true)
    (hh : healthBlocked s.healthStatus p = false)
    (hfresh : s.retryAttempts.lookup (retryKey p op) = none)
    (h0 : net 0 = .error e0) (h1 : net 1 = .error e1) (h2 : net 2 = .error e2) :
    (callProvider s p op 3 net).1 = .error (.underlying e2) ∧
    (callProvider (callProvider s p op 3 net).2.1 p op 3 net2).1
      = .error (.maxRetriesExceeded p op) := by
  have hca0 : (s.retryAttempts.lookup (retryKey p op)).getD 0 = 0 := by rw [hfresh]; rfl
  have st1 := callProviderGo_step_fail p op 3 net 3 s 0 0 e0 hreg hh hca0 (by omega) h0
  have st2 := callProviderGo_step_fail p op 3 net 2 (bumpRetry s p op 1) 1 1 e1 hreg hh
    (lookup_bumpRetry s p op 1) (by omega) h1
  have st3 := callProviderGo_step_last_fail p op 3 net 1 (bumpRetry (bumpRetry s p op 1) p op 2)
    2 2 e2 hreg hh (lookup_bumpRetry (bumpRetry s p op 1) p op 2) (by omega) (by omega) h2
  norm_num at st1 st2 st3
  have hrun : callProvider s p op 3 net =
      (.error (.underlying e2), bumpRetry (bumpRetry (bumpRetry s p op 1) p op 2) p op 3, 3) := by
    show callProviderGo p op 3 net 4 s 0 = _
    rw [st1, st2, st3]
  refine ⟨by rw [hrun], ?_⟩
  rw [hrun]
  have hg := callProviderGo_gate p op 3 net2 3
    (bumpRetry (bumpRetry (bumpRetry s p op 1) p op 2) p op 3) 0 3 hreg hh
    (lookup_bumpRetry (bumpRetry (bumpRetry s p op 1) p op 2) p op 3) (le_refl 3)
  show (callProviderGo p op 3 net2 (3 + 1)
    (bumpRetry (bumpRetry (bumpRetry s p op 1) p op 2) p op 3) 0).1 = _
  rw [hg]

/-- C3 amended witness: the concrete run of `claim_C3_counterexample`,
followed by a second invocation that hits the persisted counter and fails
with `MaxRetriesExceeded`. -/
theorem claim_C3_amended_witness :
    (callProvider brokerStateOk "openai" "chat" 3 (fun _ => .error "econnreset")).1
      = .error (.underlying "econnreset") ∧
    (callProvider (callProvider brokerStateOk "openai" "chat" 3
        (fun _ => .error "econnreset")).2.1 "openai" "chat" 3
        (fun _ => .error "econnreset")).1
      = .error (.maxRetriesExceeded "openai" "chat") :=
  claim_C3_amended brokerStateOk "openai" "chat" "econnreset" "econnreset" "econnreset"
    (fun _ => .error "econnreset") (fun _ => .error "econnreset") rfl rfl rfl rfl rfl rfl

/-- `Except.isOk` written out for the broker's result type. -/
def exOk : Except CallError String → Bool
  | .ok _ => true
  | .error _ => false

/-- C2 counterexample: with chain `[openai, local]` and both providers
failing, the thrown error is `AllProvidersFailed` carrying only the service
name; it is identical whatever the two per-provider errors were, so it
cannot be carrying them. -/
theorem claim_C2_counterexample :
    (callWithFallback brokerStateOk "llm" "chat" 3 (fun _ _ => .error "upstream timeout")).1
      = .error (.allProvidersFailed "llm") ∧
    (callWithFallback brokerStateOk "llm" "chat" 3 (fun _ _ => .error "upstream timeout")).1
      = (callWithFallback brokerStateOk "llm" "chat" 3 (fun _ _ => .error "rate limited")).1 := by
  decide

/-- C2 amended: when both providers of a two-element fallback chain fail,
`callWithFallback` fails with `AllProvidersFailed` carrying only the
service name (the per-provider errors are logged but not aggregated into
the error value). -/
theorem claim_C2_amended (s : BrokerState) (service op a b : String) (mr : Nat)
    (nets : String → Nat → Except String String)
    (hchain : s.fallbacks.lookup service = some [a, b])
    (ha : exOk (callProvider s a op mr (nets a)).1 = false)
    (hb : exOk (callProvider (callProvider s a op mr (nets a)).2.1 b op mr (nets b)).1
      = false) :
    (callWithFallback s service op mr nets).1 = .error (.allProvidersFailed service) := by
  unfold callWithFallback
  rw [hchain]
  show (callWithFallbackGo service op mr nets s [a, b]).1 = _
  simp only [callWithFallbackGo]
  cases h1 : (callProvider s a op mr (nets a)).1 with
  | ok v => rw [h1] at ha; simp [exOk] at ha
  | error e1 =>
    dsimp only
    cases h2 : (callProvider (callProvider s a op mr (nets a)).2.1 b op mr (nets b)).1 with
    | ok v => rw [h2] at hb; simp [exOk] at hb
    | error e2 => rfl

/-- C2 amended witness: both chain members fail concretely (`openai` after
its retries, `local` because it is never registered); the result is the
bare `AllProvidersFailed "llm"`. -/
theorem claim_C2_amended_witness :
    (callWithFallback brokerStateOk "llm" "chat" 3 (fun _ _ => .error "boom")).1
      = .error (.allProvidersFailed "llm") :=
  claim_C2_amended brokerStateOk "llm" "chat" "openai" "local" 3 (fun _ _ => .error "boom")
    rfl (by decide) (by decide)

/-- C7: QoS tier selection is the fixed top-to-bottom cascade — voice or
call context always wins and yields `realtime` (whatever the urgency,
complexity and category say), then high urgency yields `interactive`, then
complex research yields `batch`, and everything else defaults to
`interactive`. -/
theorem claim_C7 (intent : Intent) (context : RouteContext) :
    ((context.isVoice || context.isCall) = true →
      selectQoSTier intent context = qosRealtime) ∧
    ((context.isVoice || context.isCall) = false → intent.urgency = "high" →
      selectQoSTier intent context = qosInteractive) ∧
    ((context.isVoice || context.isCall) = false → ¬ intent.urgency = "high" →
      intent.complexity = "complex" → intent.category = "research" →
      selectQoSTier intent context = qosBatch) ∧
    ((context.isVoice || context.isCall) = false → ¬ intent.urgency = "high" →
      ¬ (intent.complexity = "complex" ∧ intent.category = "research") →
      selectQoSTier intent context = qosInteractive) := by
  refine ⟨?_, ?_, ?_, ?_⟩
  · intro hv
    simp [selectQoSTier, hv]
  · intro hv hu
    simp [selectQoSTier, hv, hu]
  · intro hv hu hc hcat
    simp [selectQoSTier, hv, hu, hc, hcat]
  · intro hv hu hcc
    simp [selectQoSTier, hv, hu, hcc]

def intentHot : Intent :=
  { category := "research", confidence := 9/10, complexity := "complex", urgency := "high"
    requiresTools := true, estimatedTokens := 2000 }

def contextVoice : RouteContext := { isVoice := true, isCall := false }

/-- C7 witness: a voice-context message whose intent is high-urgency complex
research still selects `realtime` — the voice rule wins over the urgency
and batch rules. -/
theorem claim_C7_witness :
    (contextVoice.isVoice || contextVoice.isCall) = true ∧
    selectQoSTier intentHot contextVoice = qosRealtime :=
  ⟨rfl, (claim_C7 intentHot contextVoice).1 rfl⟩

/-- A stand-in for the external md5-hex-8 digest in concrete runs; the
source only relies on the digest being a pure function of the message. -/
def digestStub : String → String := fun m => m

/-- C8 counterexample: when the first classification call fails, nothing is
cached, so a second call with the identical message 60 seconds later (well
within the 5-minute TTL) invokes the underlying capability again — two
invocations, not at most one. -/
theorem claim_C8_counterexample :
    (classifyIntent [] digestStub "hello" {} 0 (.error "api down")).2.2 = true ∧
    (classifyIntent (classifyIntent [] digestStub "hello" {} 0 (.error "api down")).2.1
        digestStub "hello" {} 60000 (.error "api down")).2.2 = true := by
  decide

/-- C8 amended: provided the first call's classification succeeds, two
`classifyIntent` calls with an identical message within the 5-minute TTL
window invoke the underlying capability exactly once: the first call (a
cache miss) invokes and caches, and the second call returns the cached
Intent without invoking, whatever its own oracle would have answered. -/
theorem claim_C8_amended (cache : List (String × CachedIntent)) (hash : String → String)
    (m : String) (ctx ctx2 : RouteContext) (t0 t1 : Nat) (base : Intent)
    (oracle2 : Except String Intent)
    (hmiss : cache.lookup ("intent_" ++ hash m) = none)
    (httl : t1 - t0 < 300000) :
    (classifyIntent cache hash m ctx t0 (.ok base)).2.2 = true ∧
    (classifyIntent (classifyIntent cache hash m ctx t0 (.ok base)).2.1
        hash m ctx2 t1 oracle2).2.2 = false ∧
    (classifyIntent (classifyIntent cache hash m ctx t0 (.ok base)).2.1
        hash m ctx2 t1 oracle2).1 = (classifyIntent cache hash m ctx t0 (.ok base)).1 := by
  have h1 : classifyIntent cache hash m ctx t0 (.ok base) = ({ base with hasContext := ctx.conversationId.isSome, isFollowUp := ctx.previousMessage.isSome }, mapSet ("intent_" ++ hash m) ⟨{ base with hasContext := ctx.conversationId.isSome, isFollowUp := ctx.previousMessage.isSome }, t0⟩ cache, true) := by
    simp [classifyIntent, hmiss, classifyIntentFresh]
  rw [h1]
  simp [classifyIntent, lookup_mapSet_self, httl]

def intentParsed : Intent :=
  { category := "research", confidence := 4/5, complexity := "moderate", urgency := "low"
    requiresTools := false, estimatedTokens := 800 }

/-- C8 amended witness: starting from an empty cache, a successful first
classification is invoked and cached; the second call 1 second later does
not invoke and returns the cached Intent. -/
theorem claim_C8_amended_witness :
    ([] : List (String × CachedIntent)).lookup ("intent_" ++ digestStub "hi") = none ∧
    ((classifyIntent [] digestStub "hi" {} 0 (.ok intentParsed)).2.2 = true ∧
     (classifyIntent (classifyIntent [] digestStub "hi" {} 0 (.ok intentParsed)).2.1
        digestStub "hi" {} 1000 (.error "down")).2.2 = false ∧
     (classifyIntent (classifyIntent [] digestStub "hi" {} 0 (.ok intentParsed)).2.1
        digestStub "hi" {} 1000 (.error "down")).1
       = (classifyIntent [] digestStub "hi" {} 0 (.ok intentParsed)).1) :=
  ⟨rfl, claim_C8_amended [] digestStub "hi" {} {} 0 1000 intentParsed (.error "down")
    rfl (by decide)⟩

def memoryEmpty : MemoryShaping :=
  { shortTerm := [], midTerm := [], longTerm := [], pins := [] }

/-- C9 counterexample: an item stored in short-term memory at time 0 is
still present in the context assembled after its age exceeded the 1-hour
horizon, because `assembleMemoryContext` reads no clock and filters nothing
— only an interleaved `cleanupMemory` sweep (third conjunct) removes it. -/
theorem claim_C9_counterexample :
    decayShortTerm < 3600001 - 0 ∧
    (assembleMemoryContext (storeShortTermMemory memoryEmpty "turn1" "hello" 0)
        "query" (getFallbackIntent "query")).shortTerm = [⟨"hello", 0⟩] ∧
    (assembleMemoryContext (cleanupMemory (storeShortTermMemory memoryEmpty "turn1" "hello" 0)
        "shortTerm" 3600001) "query" (getFallbackIntent "query")).shortTerm = [] := by
  decide

/-- C9 amended: once the short-term decay sweep has run at time `now`,
every item surviving into the assembled context is within the 1-hour
horizon (equivalently, any over-horizon item is absent), and the pin set is
untouched by the sweep and carried whole into the context. -/
theorem claim_C9_amended (ms : MemoryShaping) (now : Nat) (message : String)
    (intent : Intent) :
    ((assembleMemoryContext (cleanupMemory ms "shortTerm" now) message intent).shortTerm.all
        (fun it => decide (now - it.timestamp ≤ decayShortTerm))) = true ∧
    (assembleMemoryContext (cleanupMemory ms "shortTerm" now) message intent).pins
      = ms.pins := by
  constructor
  · rw [List.all_eq_true]
    intro it hit
    simp only [assembleMemoryContext, cleanupMemory, sliceLast, reduceIte] at hit
    obtain ⟨kv, hkv, rfl⟩ := List.mem_map.1 hit
    have hkv2 := List.drop_subset _ _ hkv
    have hage := (List.mem_filter.1 hkv2).2
    simp only [Bool.not_eq_true', decide_eq_false_iff_not, Nat.not_lt] at hage
    simpa using hage
  · simp [assembleMemoryContext, cleanupMemory]

def costTrackerZero : CostTracker := { daily := 0, monthly := 0, requests := 0, tokens := 0 }

/-- An interactive-tier (gpt-4, multiplier 1) request of length 300000
estimates to exactly 3.0: ceil(300000/3) = 100000 tokens, 100 thousand-token
units at 0.03 each. -/
theorem estimateInteractive300000 : estimateRequestCost qosInteractive 300000 = 3 := by
  norm_num [estimateRequestCost, baseCostOf, qosInteractive]
  decide

def costAfter1 : CostTracker := (checkCostSentinel costTrackerZero 10 qosInteractive 300000).2

def costAfter2 : CostTracker := (checkCostSentinel costAfter1 10 qosInteractive 300000).2

def costAfter3 : CostTracker := (checkCostSentinel costAfter2 10 qosInteractive 300000).2

def costAfter4 : CostTracker := (checkCostSentinel costAfter3 10 qosInteractive 300000).2

/-- C5: with a daily budget of 10.0 and a per-call estimate of 3.0 (an
interactive-tier gpt-4 request of length 300000 estimates to exactly 3.0),
a zeroed ledger admits exactly 3 successive calls (remaining budget 7, 4,
then 1), rejects the 4th with the budget-exceeded result carrying current
spend 9, estimate 3 and budget 10 while leaving the ledger unchanged, and
admits a further call again after `resetDailyCosts`. -/
theorem claim_C5 :
    (checkCostSentinel costTrackerZero 10 qosInteractive 300000).1 = .allowed 3 7 ∧
    (checkCostSentinel costAfter1 10 qosInteractive 300000).1 = .allowed 3 4 ∧
    (checkCostSentinel costAfter2 10 qosInteractive 300000).1 = .allowed 3 1 ∧
    (checkCostSentinel costAfter3 10 qosInteractive 300000).1 = .rejected 9 3 10 ∧
    costAfter4 = costAfter3 ∧
    (checkCostSentinel (resetDailyCosts costAfter4) 10 qosInteractive 300000).1
      = .allowed 3 7 := by
  norm_num [costAfter4, costAfter3, costAfter2, costAfter1, costTrackerZero, resetDailyCosts,
    checkCostSentinel, estimateInteractive300000]

/-- C10: whenever the cost sentinel rejects a request (daily spend plus
estimate would exceed the daily budget), the ledger is returned unchanged —
neither the daily spend nor the request counter moves — and the rejection
value carries the current spend, the estimate and the budget. -/
theorem claim_C10 (ct : CostTracker) (dailyBudget : ℚ) (tier : QoSTier) (msgLen : Nat)
    (hover : dailyBudget < ct.daily + estimateRequestCost tier msgLen) :
    (checkCostSentinel ct dailyBudget tier msgLen).2 = ct ∧
    (checkCostSentinel ct dailyBudget tier msgLen).1
      = .rejected ct.daily (estimateRequestCost tier msgLen) dailyBudget := by
  simp [checkCostSentinel, hover]

def costTrackerNine : CostTracker := { daily := 9, monthly := 0, requests := 3, tokens := 0 }

/-- C10 witness: at spend 9 with estimate 3 against budget 10, the check
rejects and the ledger is exactly the input ledger. -/
theorem claim_C10_witness :
    ((10 : ℚ) < costTrackerNine.daily + estimateRequestCost qosInteractive 300000) ∧
    (checkCostSentinel costTrackerNine 10 qosInteractive 300000).2 = costTrackerNine ∧
    (checkCostSentinel costTrackerNine 10 qosInteractive 300000).1 = .rejected 9 3 10 := by
  have h : (10 : ℚ) < costTrackerNine.daily + estimateRequestCost qosInteractive 300000 := by
    norm_num [costTrackerNine, estimateInteractive300000]
  have h2 := claim_C10 costTrackerNine 10 qosInteractive 300000 h
  refine ⟨h, h2.1, h2.2.trans ?_⟩
  norm_num [costTrackerNine, estimateInteractive300000]

end Rika
